import Mathlib

/-!
Verification development for the iPayNotify subscription dashboard.

The repository's business core — subscription status evaluation, expiry
extension on payment, SMS message templates, phone normalization, the
notification dispatch flows — is shallowly embedded below.  Each embedded
definition carries a reference to the source location it translates.
Machine dates are modelled as calendar dates (year, month, day); instants
used for day-count arithmetic are modelled as integer milliseconds, with
`Math.ceil` of the real-number division rendered as exact integer ceiling
division (the millisecond quantities involved are far below the range where
IEEE double rounding could move a quotient across an integer boundary for
the day counts at issue).
-/

set_option maxRecDepth 8000

namespace IPayNotify

/-! ## Subscription status evaluator

Embeds `getSubscriptionStatus` (src/src/components/Dashboard.tsx:199-211):
`daysUntil = Math.ceil((expiry.getTime() - now.getTime()) / (1000*60*60*24))`
then a three-way classification on `daysUntil`. -/

inductive SubStatus where
  | expired
  | expiringSoon
  | active
deriving DecidableEq, Repr

/-- Milliseconds per day, the divisor `1000 * 60 * 60 * 24` in the source. -/
def msPerDay : Int := 86400000

/-- `Math.ceil((expiryMs - nowMs) / msPerDay)` as exact integer ceiling
division: Lean's `Int` division `/` is floor division for a positive
divisor, so the ceiling is `-((-x) / d)`. -/
def daysUntil (expiryMs nowMs : Int) : Int :=
  -(-(expiryMs - nowMs) / msPerDay)

structure StatusInfo where
  status : SubStatus
  days : Int
deriving DecidableEq, Repr

/-- `getSubscriptionStatus` of src/src/components/Dashboard.tsx:199-211. -/
def getSubscriptionStatus (expiryMs nowMs : Int) : StatusInfo :=
  let d := daysUntil expiryMs nowMs
  if d < 0 then
    { status := .expired, days := |d| }
  else if d ≤ 3 then
    { status := .expiringSoon, days := d }
  else
    { status := .active, days := d }

/-! ## Calendar dates and the expiry extension -/

/-- A calendar date, month `1..12`, day `1..31`.  The repository stores
`expiry_date` as a date-only string, so calendar-date granularity is the
source's own granularity for expiry arithmetic. -/
structure Date where
  year : Int
  month : Nat
  day : Nat
deriving DecidableEq, Repr

/-- Leap-year rule of the Gregorian calendar (as implemented by the JS
`Date` object backing date-fns). -/
def isLeap (y : Int) : Bool :=
  decide (y % 4 = 0) && (decide (y % 100 ≠ 0) || decide (y % 400 = 0))

def daysInMonth (y : Int) (m : Nat) : Nat :=
  if m = 2 then (if isLeap y then 29 else 28)
  else if m = 4 ∨ m = 6 ∨ m = 9 ∨ m = 11 then 30
  else 31

/-- date-fns `addMonths`: advance the month index and clamp the day-of-month
to the last valid day of the target month. -/
def addMonths (d : Date) (m : Nat) : Date :=
  let idx : Int := d.year * 12 + ((d.month : Int) - 1) + (m : Int)
  let y := idx / 12
  let mo := (idx % 12).toNat + 1
  { year := y, month := mo, day := min d.day (daysInMonth y mo) }

/-- The JS `Date` comparison `a < b`, at calendar-date granularity:
lexicographic on (year, month, day). -/
def dateLt (a b : Date) : Bool :=
  decide (a.year < b.year) ||
    (decide (a.year = b.year) &&
      (decide (a.month < b.month) ||
        (decide (a.month = b.month) && decide (a.day < b.day))))

/-- `a <= b` on dates: `dateLt a b` or equality. -/
def dateLe (a b : Date) : Bool :=
  dateLt a b || decide (a = b)

/-- Embeds the expiry computation of `PaymentModal.handleSubmit`
(src/src/components/PaymentModal.tsx:77-82):
`startDate = currentExpiry > now ? currentExpiry : now;
 newExpiry = addMonths(startDate, months_paid)`. -/
def extend (currentExpiry now : Date) (monthsPaid : Nat) : Date :=
  let startDate := if dateLt now currentExpiry then currentExpiry else now
  addMonths startDate monthsPaid

/-- The spec's anchor `max(currentExpiry, now)` (spec §4.2), written from the
spec's words for comparison with the source's `extend`. -/
def specMaxDate (a b : Date) : Date :=
  if dateLt a b then b else a

theorem dateLt_asymm {a b : Date} (h : dateLt a b = true) : dateLt b a = false := by
  cases a with
  | mk ay am ad =>
    cases b with
    | mk by' bm bd =>
      simp only [dateLt, Bool.or_eq_true, Bool.and_eq_true, decide_eq_true_eq] at h
      simp only [dateLt, Bool.or_eq_false_iff, Bool.and_eq_false_iff,
        decide_eq_false_iff_not, not_lt]
      omega

theorem dateLt_total_eq {a b : Date} (h1 : dateLt a b = false)
    (h2 : dateLt b a = false) : a = b := by
  cases a with
  | mk ay am ad =>
    cases b with
    | mk by' bm bd =>
      simp only [dateLt, Bool.or_eq_false_iff, Bool.and_eq_false_iff,
        decide_eq_false_iff_not, not_lt] at h1 h2
      simp only [Date.mk.injEq]
      omega

theorem dateLt_irrefl (a : Date) : dateLt a a = false := by
  cases a with
  | mk ay am ad => simp [dateLt]

/-- C1: the subscription status evaluator classifies a customer as Expired
exactly when `daysDelta = ceil((E - N) / 1 day)` is strictly negative (with
magnitude `abs daysDelta`), as Expiring Soon exactly when
`0 ≤ daysDelta ≤ 3`, and as Active otherwise; `daysDelta = 0` (expires
today) yields Expiring Soon, never Expired.  The first conjunct pins
`daysUntil` as the mathematical ceiling of `(E - N) / msPerDay`. -/
theorem subscription_status_classification (e n : Int) :
    (msPerDay * (daysUntil e n - 1) < e - n ∧ e - n ≤ msPerDay * daysUntil e n)
    ∧ ((getSubscriptionStatus e n).status = .expired ↔ daysUntil e n < 0)
    ∧ ((getSubscriptionStatus e n).status = .expired →
        (getSubscriptionStatus e n).days = |daysUntil e n|)
    ∧ ((getSubscriptionStatus e n).status = .expiringSoon ↔
        0 ≤ daysUntil e n ∧ daysUntil e n ≤ 3)
    ∧ ((getSubscriptionStatus e n).status = .active ↔ 3 < daysUntil e n)
    ∧ (daysUntil e n = 0 → (getSubscriptionStatus e n).status = .expiringSoon) := by
  refine ⟨by unfold daysUntil msPerDay; omega, ?_⟩
  unfold getSubscriptionStatus
  dsimp only
  split
  · simp_all
    omega
  · split <;> simp_all <;> omega

/-- C2: the expiry extension anchors at `max(currentExpiry, now)` and adds
`monthsPaid` calendar months with month-end clamping; when `now ≤ expiry`
the result is `expiry + m` months independent of `now`, and when
`expiry < now` it is `now + m` months.  The closed conjuncts exhibit the
standard month-end clamping of the calendar addition. -/
theorem extend_anchors_at_max (E N : Date) (m : Nat) (hm : 0 < m) :
    extend E N m = addMonths (specMaxDate E N) m
    ∧ (dateLe N E = true → extend E N m = addMonths E m)
    ∧ (dateLt E N = true → extend E N m = addMonths N m)
    ∧ addMonths ⟨2025, 1, 31⟩ 1 = ⟨2025, 2, 28⟩
    ∧ addMonths ⟨2024, 1, 31⟩ 1 = ⟨2024, 2, 29⟩ := by
  refine ⟨?_, ?_, ?_, by decide, by decide⟩
  · unfold extend specMaxDate
    cases h1 : dateLt N E
    · cases h2 : dateLt E N
      · simp [dateLt_total_eq h2 h1]
      · simp
    · simp [dateLt_asymm h1]
  · intro h
    unfold extend
    unfold dateLe at h
    rcases Bool.or_eq_true_iff.mp h with h' | h'
    · simp [h']
    · simp [of_decide_eq_true h', dateLt_irrefl]
  · intro h
    unfold extend
    simp [dateLt_asymm h]

/-- Witness for `extend_anchors_at_max`: a concrete renewal before expiry,
anchored at the old expiry date and clamped to the end of February. -/
theorem extend_anchors_at_max_witness :
    extend ⟨2025, 1, 31⟩ ⟨2024, 12, 15⟩ 1
        = addMonths (specMaxDate ⟨2025, 1, 31⟩ ⟨2024, 12, 15⟩) 1
    ∧ extend ⟨2025, 1, 31⟩ ⟨2024, 12, 15⟩ 1 = ⟨2025, 2, 28⟩ :=
  ⟨(extend_anchors_at_max ⟨2025, 1, 31⟩ ⟨2024, 12, 15⟩ 1 (by decide)).1, by decide⟩

/-! ## Phone normalization

Embeds the phone formatting of `sendSMS` (src/src/lib/smsService.ts:45-56):
`to.replace(/\s+/g, '').replace(/^\+/, '')`, then replace a leading `0`
with `233`, then prepend `233` when the string does not start with `233`.
JS strings are modelled through their character lists. -/

/-- The characters the JS regex class `\s` matches in this repository's
inputs (ASCII whitespace). -/
def isJsSpace (c : Char) : Bool :=
  c = ' ' || c = '\t' || c = '\n' || c = '\r' || c = '\x0b' || c = '\x0c'

/-- `s.replace(/\s+/g, '')`: every whitespace character is removed. -/
def stripWs (s : String) : String :=
  ⟨s.data.filter (fun c => !isJsSpace c)⟩

/-- `s.replace(/^\+/, '')`: a single leading `+` is removed. -/
def dropLeadingPlus (s : String) : String :=
  match s.data with
  | '+' :: rest => ⟨rest⟩
  | _ => s

/-- `if (f.startsWith('0')) f = '233' + f.substring(1)`. -/
def replaceLeadingZero (s : String) : String :=
  match s.data with
  | '0' :: rest => ⟨'2' :: '3' :: '3' :: rest⟩
  | _ => s

/-- `if (!f.startsWith('233')) f = '233' + f`. -/
def ensureCountryCode (s : String) : String :=
  if ("233".data).isPrefixOf s.data then s else ⟨'2' :: '3' :: '3' :: s.data⟩

/-- The complete phone formatting pipeline of `sendSMS`
(src/src/lib/smsService.ts:45-56); `sendBulkSMS` applies the identical
steps per recipient (src/src/lib/smsService.ts:116-129). -/
def formatPhone (s : String) : String :=
  ensureCountryCode (replaceLeadingZero (dropLeadingPlus (stripWs s)))

theorem formatPhone_starts_233 (s : String) :
    ∃ u, (formatPhone s).data = '2' :: '3' :: '3' :: u := by
  unfold formatPhone ensureCountryCode
  split
  next h =>
    rcases List.isPrefixOf_iff_prefix.mp h with ⟨u, hu⟩
    exact ⟨u, hu.symm⟩
  next => exact ⟨_, rfl⟩

theorem formatPhone_no_ws (s : String) :
    ∀ c ∈ (formatPhone s).data, isJsSpace c = false := by
  have base : ∀ c ∈ (stripWs s).data, isJsSpace c = false := by
    intro c hc
    simp only [stripWs, List.mem_filter, Bool.not_eq_eq_eq_not, Bool.not_true] at hc
    exact hc.2
  have plus : ∀ c ∈ (dropLeadingPlus (stripWs s)).data, isJsSpace c = false := by
    intro c hc
    unfold dropLeadingPlus at hc
    split at hc
    next heq => exact base c (by rw [heq]; exact List.mem_cons_of_mem _ hc)
    next => exact base c hc
  have zero : ∀ c ∈ (replaceLeadingZero (dropLeadingPlus (stripWs s))).data,
      isJsSpace c = false := by
    intro c hc
    unfold replaceLeadingZero at hc
    split at hc
    next heq =>
      simp only [List.mem_cons] at hc
      rcases hc with h | h | h | h
      · subst h; decide
      · subst h; decide
      · subst h; decide
      · exact plus c (by rw [heq]; exact List.mem_cons_of_mem _ h)
    next => exact plus c hc
  intro c hc
  unfold formatPhone ensureCountryCode at hc
  split at hc
  next => exact zero c hc
  next =>
    simp only [List.mem_cons] at hc
    rcases hc with h | h | h | h
    · subst h; decide
    · subst h; decide
    · subst h; decide
    · exact zero c h

/-- C5: the phone normalization of `sendSMS` is idempotent, and meets the
spec's concrete scenarios: a local leading-zero number gains the country
code, and a `+`-prefixed international number loses only the `+`. -/
theorem formatPhone_idempotent :
    (∀ s : String, formatPhone (formatPhone s) = formatPhone s)
    ∧ formatPhone "0241234567" = "233241234567"
    ∧ formatPhone "+233241234567" = "233241234567" := by
  refine ⟨?_, by decide, by decide⟩
  intro s
  obtain ⟨u, hu⟩ := formatPhone_starts_233 s
  have hws := formatPhone_no_ws s
  have h1 : stripWs (formatPhone s) = formatPhone s := by
    unfold stripWs
    rw [List.filter_eq_self.mpr (by intro a ha; rw [hws a ha]; rfl)]
  have h2 : dropLeadingPlus (formatPhone s) = formatPhone s := by
    unfold dropLeadingPlus
    split
    next heq => rw [hu] at heq; simp at heq
    next => rfl
  have h3 : replaceLeadingZero (formatPhone s) = formatPhone s := by
    unfold replaceLeadingZero
    split
    next heq => rw [hu] at heq; simp at heq
    next => rfl
  have h4 : ensureCountryCode (formatPhone s) = formatPhone s := by
    unfold ensureCountryCode
    rw [if_pos]
    rw [hu]
    simp [List.isPrefixOf]
  calc formatPhone (formatPhone s)
      = ensureCountryCode (replaceLeadingZero (dropLeadingPlus
          (stripWs (formatPhone s)))) := rfl
    _ = formatPhone s := by rw [h1, h2, h3, h4]

/-! ## Message templates

Embeds src/unnamed/part_000 (`messageTemplates`): `toOrdinalDate`,
`firstName`, and the six rendering functions.  JS currency numbers are
modelled in cents (`Nat`), so `totalAmount.toFixed(2)` becomes `toFixed2`
on cents; `charAt(0).toUpperCase()` is modelled with `Char.toUpper`
(ASCII uppercase, which covers the repository's Latin-script names). -/

structure VendorData where
  name : Option String := none
  contact_phone : Option String := none
  slogan : Option String := none
deriving DecidableEq, Repr

/-- JS `x || d` for an optional string: the default when the field is
absent or empty (JS falsiness of `undefined` and `""`). -/
def jsOr (v : Option String) (d : String) : String :=
  match v with
  | some s => if s = "" then d else s
  | none => d

/-- `vendor?.slogan ? msg + "\n\n" + vendor.slogan : msg`. -/
def withSlogan (vendor : Option VendorData) (msg : String) : String :=
  match vendor.bind (·.slogan) with
  | some sl => if sl = "" then msg else msg ++ "\n\n" ++ sl
  | none => msg

def defaultBusiness : String := "Qaretech Innovative"
def defaultPhone : String := "0241234567"

/-- `toOrdinalDate` (src/unnamed/part_000:8-17). -/
def ordinalSuffix (day : Nat) : String :=
  if day = 1 ∨ day = 21 ∨ day = 31 then "st"
  else if day = 2 ∨ day = 22 then "nd"
  else if day = 3 ∨ day = 23 then "rd"
  else "th"

def monthName : Nat → String
  | 1 => "January"
  | 2 => "February"
  | 3 => "March"
  | 4 => "April"
  | 5 => "May"
  | 6 => "June"
  | 7 => "July"
  | 8 => "August"
  | 9 => "September"
  | 10 => "October"
  | 11 => "November"
  | 12 => "December"
  | _ => ""

def toOrdinalDate (d : Date) : String :=
  toString d.day ++ ordinalSuffix d.day ++ " " ++ monthName d.month
    ++ ", " ++ toString d.year

/-- `s.trim()`: whitespace removed from both ends. -/
def jsTrim (s : String) : String :=
  ⟨((s.data.dropWhile isJsSpace).reverse.dropWhile isJsSpace).reverse⟩

/-- `firstName` (src/unnamed/part_000:19-24): first whitespace-delimited
token of the trimmed name, first letter capitalized; literal `"Customer"`
when the trimmed name is empty. -/
def firstName (fullName : String) : String :=
  let trimmed := jsTrim fullName
  if trimmed.data = [] then "Customer"
  else
    let w := trimmed.data.takeWhile (fun c => !isJsSpace c)
    ⟨(w.take 1).map Char.toUpper ++ w.drop 1⟩

/-- `${totalAmount.toFixed(2)}` for an amount held in cents. -/
def toFixed2 (cents : Nat) : String :=
  toString (cents / 100) ++ "." ++ (if cents % 100 < 10 then "0" else "")
    ++ toString (cents % 100)

/-- `templateWelcome` (src/unnamed/part_000:26-34). -/
def templateWelcome (fullName : String) (endDate : Date)
    (vendor : Option VendorData) : String :=
  let business := jsOr (vendor.bind (·.name)) defaultBusiness
  let phone := jsOr (vendor.bind (·.contact_phone)) defaultPhone
  let whatsapp := jsOr (vendor.bind (·.contact_phone)) defaultPhone
  let name := firstName fullName
  let endStr := toOrdinalDate endDate
  withSlogan vendor (business ++ ": 🎉 Welcome " ++ name
    ++ "! Your internet service is active until " ++ endStr
    ++ ". Need help? Call " ++ phone ++ " or WhatsApp " ++ whatsapp
    ++ ". Reply CALL if you want us to reach out.")

/-- `templatePaymentConfirmation` (src/unnamed/part_000:36-44), the total
amount in cents. -/
def templatePaymentConfirmation (fullName : String) (totalCents : Nat)
    (newEndDate : Date) (vendor : Option VendorData) : String :=
  let business := jsOr (vendor.bind (·.name)) defaultBusiness
  let phone := jsOr (vendor.bind (·.contact_phone)) defaultPhone
  let whatsapp := jsOr (vendor.bind (·.contact_phone)) defaultPhone
  let name := firstName fullName
  let endStr := toOrdinalDate newEndDate
  withSlogan vendor (business ++ ": ✅ Payment GHC " ++ toFixed2 totalCents
    ++ " received. Thanks, " ++ name ++ "! Your new expiry is " ++ endStr
    ++ ". Questions? Call " ++ phone ++ " or WhatsApp " ++ whatsapp ++ ".")

/-- `templateActivation` (src/unnamed/part_000:46-54). -/
def templateActivation (fullName : String) (newEndDate : Date)
    (vendor : Option VendorData) : String :=
  let business := jsOr (vendor.bind (·.name)) defaultBusiness
  let phone := jsOr (vendor.bind (·.contact_phone)) defaultPhone
  let whatsapp := jsOr (vendor.bind (·.contact_phone)) defaultPhone
  let name := firstName fullName
  let endStr := toOrdinalDate newEndDate
  withSlogan vendor (business ++ ": 🚀 Service reactivated, " ++ name
    ++ "! You're online until " ++ endStr ++ ". Renew anytime via " ++ phone
    ++ " or WhatsApp " ++ whatsapp ++ ". Reply HELP for support.")

/-- `templateExpired` (src/unnamed/part_000:69-77); `daysAgo` is the
(non-negative) day count the caller passes. -/
def templateExpired (fullName : String) (daysAgo : Int) (endDate : Date)
    (vendor : Option VendorData) : String :=
  let business := jsOr (vendor.bind (·.name)) defaultBusiness
  let phone := jsOr (vendor.bind (·.contact_phone)) defaultPhone
  let whatsapp := jsOr (vendor.bind (·.contact_phone)) defaultPhone
  let name := firstName fullName
  let endStr := toOrdinalDate endDate
  withSlogan vendor (business ++ ": ❗ " ++ name ++ ", your service expired "
    ++ toString daysAgo ++ " day" ++ (if daysAgo > 1 then "s" else "")
    ++ " ago (on " ++ endStr ++ "). Reactivate today: call " ++ phone
    ++ " or WhatsApp " ++ whatsapp ++ ". Reply CALL for assistance.")

/-- `templateExpiring` (src/unnamed/part_000:56-67): delegates to
`templateExpired` with `Math.abs(daysLeft)` when `daysLeft <= 0`. -/
def templateExpiring (fullName : String) (daysLeft : Int) (endDate : Date)
    (vendor : Option VendorData) : String :=
  let business := jsOr (vendor.bind (·.name)) defaultBusiness
  let phone := jsOr (vendor.bind (·.contact_phone)) defaultPhone
  let whatsapp := jsOr (vendor.bind (·.contact_phone)) defaultPhone
  let name := firstName fullName
  let endStr := toOrdinalDate endDate
  if daysLeft ≤ 0 then
    templateExpired fullName |daysLeft| endDate vendor
  else
    withSlogan vendor (business ++ ": ⏰ Hi " ++ name
      ++ ", your subscription ends in " ++ toString daysLeft ++ " day"
      ++ (if daysLeft > 1 then "s" else "") ++ " on " ++ endStr
      ++ ". Renew now: call " ++ phone ++ " or WhatsApp " ++ whatsapp
      ++ ". Reply RENEW and we'll call you back.")

/-- C7: the rendered greeting uses the first whitespace-delimited token of
the trimmed name with its first letter capitalized ("ama serwaa" renders as
"Ama"), substituting the literal "Customer" for an empty or whitespace-only
name; the rendered date is day number plus ordinal suffix ("st" for 1, 21,
31; "nd" for 2, 22; "rd" for 3, 23; "th" otherwise), full month name and
year.  The final conjunct is the spec's Scenario 6 render. -/
theorem template_personalization :
    (∀ s : String, (∀ c ∈ s.data, isJsSpace c = true) → firstName s = "Customer")
    ∧ firstName "ama serwaa" = "Ama"
    ∧ (∀ d : Nat,
        (ordinalSuffix d = "st" ↔ d = 1 ∨ d = 21 ∨ d = 31)
        ∧ (ordinalSuffix d = "nd" ↔ d = 2 ∨ d = 22)
        ∧ (ordinalSuffix d = "rd" ↔ d = 3 ∨ d = 23)
        ∧ (¬(d = 1 ∨ d = 21 ∨ d = 31 ∨ d = 2 ∨ d = 22 ∨ d = 3 ∨ d = 23) →
            ordinalSuffix d = "th"))
    ∧ toOrdinalDate ⟨2025, 11, 21⟩ = "21st November, 2025"
    ∧ toOrdinalDate ⟨2025, 11, 22⟩ = "22nd November, 2025"
    ∧ toOrdinalDate ⟨2026, 3, 3⟩ = "3rd March, 2026"
    ∧ toOrdinalDate ⟨2025, 11, 15⟩ = "15th November, 2025"
    ∧ templateExpiring "ama serwaa" 1 ⟨2025, 11, 21⟩ none
        = "Qaretech Innovative: ⏰ Hi Ama, your subscription ends in 1 day on 21st November, 2025. Renew now: call 0241234567 or WhatsApp 0241234567. Reply RENEW and we'll call you back." := by
  refine ⟨?_, by decide, ?_, by decide, by decide, by decide, by decide, by decide⟩
  · intro s h
    unfold firstName jsTrim
    have hnil : s.data.dropWhile isJsSpace = [] :=
      List.dropWhile_eq_nil_iff.mpr (fun x hx => h x hx)
    simp [hnil]
  · intro d
    unfold ordinalSuffix
    split_ifs with h1 h2 h3 <;>
      refine ⟨?_, ?_, ?_, ?_⟩ <;>
      first
        | exact iff_of_true rfl (by omega)
        | exact iff_of_false (by decide) (by omega)
        | (intro hn; exact absurd (by omega) hn)
        | (intro hn; rfl)

/-- C8: for `daysLeft ≤ 0` the Expiring renderer returns exactly the
Expired renderer at `daysAgo = |daysLeft|` with the same remaining
arguments; for positive `daysLeft` it renders the days-remaining message
with "day" singular at 1 and "days" otherwise (shown at 1 and 3). -/
theorem templateExpiring_delegates :
    (∀ (name : String) (daysLeft : Int) (d : Date) (v : Option VendorData),
        daysLeft ≤ 0 →
          templateExpiring name daysLeft d v
            = templateExpired name |daysLeft| d v)
    ∧ templateExpiring "ama serwaa" 1 ⟨2025, 11, 21⟩ none
        = "Qaretech Innovative: ⏰ Hi Ama, your subscription ends in 1 day on 21st November, 2025. Renew now: call 0241234567 or WhatsApp 0241234567. Reply RENEW and we'll call you back."
    ∧ templateExpiring "ama serwaa" 3 ⟨2025, 11, 21⟩ none
        = "Qaretech Innovative: ⏰ Hi Ama, your subscription ends in 3 days on 21st November, 2025. Renew now: call 0241234567 or WhatsApp 0241234567. Reply RENEW and we'll call you back." := by
  refine ⟨?_, by decide, by decide⟩
  intro name daysLeft d v h
  unfold templateExpiring
  dsimp only
  rw [if_pos h]

/-! ## Payment dispatch

Embeds the happy path of `PaymentModal.handleSubmit`
(src/src/components/PaymentModal.tsx:76-141): new expiry via `extend`,
`wasExpired = oldExpiry < now` computed from the customer's expiry date
before the update is persisted, the payment row stored with the per-month
`amount`, the confirmation SMS rendered at `amount * months_paid`, and the
activation SMS rendered exactly when `wasExpired`. -/

structure PaymentSubmitResult where
  newExpiry : Date
  wasExpired : Bool
  rowAmountCents : Nat
  rowMonthsPaid : Nat
  confirmationMsg : String
  activationMsg : Option String
deriving DecidableEq, Repr

def paymentHandleSubmit (custName : String) (custExpiry now : Date)
    (amountCents monthsPaid : Nat) (vendor : Option VendorData) :
    PaymentSubmitResult :=
  let newExpiry := extend custExpiry now monthsPaid
  let wasExpired := dateLt custExpiry now
  { newExpiry := newExpiry
    wasExpired := wasExpired
    rowAmountCents := amountCents
    rowMonthsPaid := monthsPaid
    confirmationMsg :=
      templatePaymentConfirmation custName (amountCents * monthsPaid)
        newExpiry vendor
    activationMsg :=
      if wasExpired then some (templateActivation custName newExpiry vendor)
      else none }

/-- C4: the dispatcher always sends the Payment Confirmation template and
sends the Activation template iff `wasExpired = (currentExpiry < now)` was
true before the expiry update; the closed conjuncts run the spec's
Scenario 3 (payment of 1 month on a customer expired 10 days ago: both
templates fire and the new expiry anchors at `now`). -/
theorem payment_dispatch_templates :
    (∀ (name : String) (E N : Date) (a m : Nat) (v : Option VendorData),
        (paymentHandleSubmit name E N a m v).wasExpired = dateLt E N
        ∧ (paymentHandleSubmit name E N a m v).confirmationMsg
            = templatePaymentConfirmation name (a * m) (extend E N m) v
        ∧ ((paymentHandleSubmit name E N a m v).activationMsg
            = some (templateActivation name (extend E N m) v)
              ↔ dateLt E N = true)
        ∧ ((paymentHandleSubmit name E N a m v).activationMsg = none
              ↔ dateLt E N = false))
    ∧ (paymentHandleSubmit "Ama" ⟨2025, 11, 11⟩ ⟨2025, 11, 21⟩ 2550 1
        none).wasExpired = true
    ∧ (paymentHandleSubmit "Ama" ⟨2025, 11, 11⟩ ⟨2025, 11, 21⟩ 2550 1
        none).activationMsg.isSome = true
    ∧ (paymentHandleSubmit "Ama" ⟨2025, 11, 11⟩ ⟨2025, 11, 21⟩ 2550 1
        none).newExpiry = ⟨2025, 12, 21⟩ := by
  refine ⟨?_, by decide, by decide, by decide⟩
  intro name E N a m v
  unfold paymentHandleSubmit
  cases h : dateLt E N <;> simp [h]

/-- C10: the persisted payment row's `amount` holds only the per-month
amount, while the confirmation SMS states the total `amount * months`
(rendered to two decimal places by the template); the two differ whenever
`1 < months` and `0 < amount`.  The closed conjunct shows the rendered
total for a 2-month payment at GHC 25.50 per month. -/
theorem payment_row_amount_vs_sms_total :
    (∀ (name : String) (E N : Date) (a m : Nat) (v : Option VendorData),
        (paymentHandleSubmit name E N a m v).rowAmountCents = a
        ∧ (paymentHandleSubmit name E N a m v).confirmationMsg
            = templatePaymentConfirmation name (a * m)
                (paymentHandleSubmit name E N a m v).newExpiry v
        ∧ (1 < m → 0 < a → a ≠ a * m))
    ∧ (paymentHandleSubmit "Ama" ⟨2025, 11, 21⟩ ⟨2025, 11, 1⟩ 2550 2
        none).confirmationMsg
        = "Qaretech Innovative: ✅ Payment GHC 51.00 received. Thanks, Ama! Your new expiry is 21st January, 2026. Questions? Call 0241234567 or WhatsApp 0241234567."
    ∧ (paymentHandleSubmit "Ama" ⟨2025, 11, 21⟩ ⟨2025, 11, 1⟩ 2550 2
        none).rowAmountCents = 2550 := by
  refine ⟨?_, by decide, by decide⟩
  intro name E N a m v
  refine ⟨rfl, rfl, ?_⟩
  intro hm ha
  have : a < a * m := (lt_mul_iff_one_lt_right ha).mpr hm
  omega

/-! ## Failure isolation of notifications

Embeds the control flow of `PaymentModal.handleSubmit`
(src/src/components/PaymentModal.tsx:76-151) and of the customer-creation
branch of `CustomerModal.handleSubmit` (src/unnamed/part_003:84-103): the
SMS call sits in an inner try/catch whose handler only shows a warning
alert, so an SMS failure never reaches the outer catch that reports a
mutation error, and the flow still completes (`onSave(); onClose()`). -/

structure MutationOutcome where
  paymentInserted : Bool
  customerUpdated : Bool
  smsWarningShown : Bool
  errorShown : Option String
  completed : Bool
deriving DecidableEq, Repr

def paymentFlowOutcome (insertOk updateOk smsOk : Bool) : MutationOutcome :=
  if !insertOk then
    { paymentInserted := false, customerUpdated := false,
      smsWarningShown := false,
      errorShown := some "Failed to record payment", completed := false }
  else if !updateOk then
    { paymentInserted := true, customerUpdated := false,
      smsWarningShown := false,
      errorShown := some "Failed to update customer", completed := false }
  else
    { paymentInserted := true, customerUpdated := true,
      smsWarningShown := !smsOk, errorShown := none, completed := true }

structure CreateOutcome where
  customerInserted : Bool
  smsWarningShown : Bool
  errorShown : Option String
  completed : Bool
deriving DecidableEq, Repr

def customerCreateOutcome (insertOk smsOk : Bool) : CreateOutcome :=
  if !insertOk then
    { customerInserted := false, smsWarningShown := false,
      errorShown := some "Failed to create customer", completed := false }
  else
    { customerInserted := true, smsWarningShown := !smsOk,
      errorShown := none, completed := true }

/-- C6: once the business mutation has committed, an SMS failure never
rolls it back: the payment flow keeps the payment row and the customer
update, reports no error, completes, and surfaces the SMS failure only as
a warning; likewise customer creation keeps the created row with the
welcome-SMS failure surfaced only as a warning. -/
theorem sms_failure_never_rolls_back :
    ∀ smsOk : Bool,
      (paymentFlowOutcome true true smsOk).paymentInserted = true
      ∧ (paymentFlowOutcome true true smsOk).customerUpdated = true
      ∧ (paymentFlowOutcome true true smsOk).completed = true
      ∧ (paymentFlowOutcome true true smsOk).errorShown = none
      ∧ (paymentFlowOutcome true true smsOk).smsWarningShown = !smsOk
      ∧ (customerCreateOutcome true smsOk).customerInserted = true
      ∧ (customerCreateOutcome true smsOk).completed = true
      ∧ (customerCreateOutcome true smsOk).errorShown = none
      ∧ (customerCreateOutcome true smsOk).smsWarningShown = !smsOk := by
  decide

/-! ## Bulk reminder dispatch

Embeds the multi-recipient branch of `SMSModal.handleSubmit`
(src/src/components/Dashboard.tsx:869-946): a sequential loop over the
selected customers, counting successes and failures and collecting one
`"<name>: <reason>"` entry per failure; after the loop the source advances
`last_reminder_sent` with one update over the whole selection,
`.update(...).in('id', selectedCustomers)`, so every selected customer's
timestamp is advanced, failed sends included.  A send outcome is modelled
as `none` (accepted) or `some reason` (the thrown error's message). -/

structure BulkCustomer where
  id : Nat
  name : String
deriving DecidableEq, Repr

structure BulkSendResult where
  successful : Nat
  failed : Nat
  errors : List String
  reminderAdvanced : List Nat
deriving DecidableEq, Repr

/-- The per-recipient send loop: counts and error list, in selection
order. -/
def bulkLoop (send : BulkCustomer → Option String) :
    List BulkCustomer → Nat × Nat × List String
  | [] => (0, 0, [])
  | c :: rest =>
    let r := bulkLoop send rest
    match send c with
    | none => (r.1 + 1, r.2.1, r.2.2)
    | some e => (r.1, r.2.1 + 1, (c.name ++ ": " ++ e) :: r.2.2)

def smsModalBulkSubmit (selected : List BulkCustomer)
    (send : BulkCustomer → Option String) : BulkSendResult :=
  let r := bulkLoop send selected
  { successful := r.1
    failed := r.2.1
    errors := r.2.2
    reminderAdvanced := selected.map (·.id) }

theorem bulkLoop_counts (send : BulkCustomer → Option String)
    (l : List BulkCustomer) :
    (bulkLoop send l).1 = (l.filter (fun c => (send c).isNone)).length
    ∧ (bulkLoop send l).2.1 = (l.filter (fun c => (send c).isSome)).length
    ∧ (bulkLoop send l).2.2
        = l.filterMap (fun c => (send c).map (fun e => c.name ++ ": " ++ e)) := by
  induction l with
  | nil => simp [bulkLoop]
  | cons c rest ih =>
    cases h : send c <;>
      simp [bulkLoop, h, ih.1, ih.2.1, ih.2.2]

/-- The send outcome of the spec's Scenario 4 shape: the recipient with
id 2 is rejected by the gateway, every other send is accepted. -/
def rejectId2 : BulkCustomer → Option String :=
  fun c => if c.id = 2 then some "Arkesel rejected/failed: Invalid number (HTTP 400)" else none

/-- C3 (counterexample): in a bulk send where Kofi's send fails, the
dispatcher still advances `last_reminder_sent` for Kofi — the claim that
only successful recipients get their timestamp advanced is false on the
code, which updates the whole selection after the loop. -/
theorem bulk_reminder_advanced_for_failures :
    (smsModalBulkSubmit [⟨1, "Ama"⟩, ⟨2, "Kofi"⟩, ⟨3, "Esi"⟩] rejectId2).successful = 2
    ∧ (smsModalBulkSubmit [⟨1, "Ama"⟩, ⟨2, "Kofi"⟩, ⟨3, "Esi"⟩] rejectId2).failed = 1
    ∧ rejectId2 ⟨2, "Kofi"⟩
        = some "Arkesel rejected/failed: Invalid number (HTTP 400)"
    ∧ 2 ∈ (smsModalBulkSubmit [⟨1, "Ama"⟩, ⟨2, "Kofi"⟩, ⟨3, "Esi"⟩]
        rejectId2).reminderAdvanced := by
  decide

/-- C3 (amended): the bulk dispatcher counts successes and failures,
collects one `"<name>: <reason>"` entry per failure in selection order,
does not undo earlier successful sends on a later failure, and advances
`last_reminder_sent` for every selected recipient — the failed ones
included — rather than only for the successes. -/
theorem bulk_partial_failure_bookkeeping :
    ∀ (selected : List BulkCustomer) (send : BulkCustomer → Option String),
      (smsModalBulkSubmit selected send).successful
          = (selected.filter (fun c => (send c).isNone)).length
      ∧ (smsModalBulkSubmit selected send).failed
          = (selected.filter (fun c => (send c).isSome)).length
      ∧ (smsModalBulkSubmit selected send).errors
          = selected.filterMap
              (fun c => (send c).map (fun e => c.name ++ ": " ++ e))
      ∧ (smsModalBulkSubmit selected send).reminderAdvanced
          = selected.map (·.id) := by
  intro selected send
  exact ⟨(bulkLoop_counts send selected).1, (bulkLoop_counts send selected).2.1,
    (bulkLoop_counts send selected).2.2, rfl⟩

/-! ## Sender id -/

/-- `finalSenderId` of `sendSMS` (src/src/lib/smsService.ts:39-43); the
identical computation appears in `sendBulkSMS`
(src/src/lib/smsService.ts:110-114).  A supplied sender id (JS-truthy,
i.e. non-empty) has its whitespace removed and is cut to 11 characters by
`substring(0, 11)`; otherwise the configured id is used as-is. -/
def finalSenderId (senderId : Option String) (configSenderId : String) : String :=
  match senderId with
  | some sid => if sid = "" then configSenderId else ⟨(stripWs sid).data.take 11⟩
  | none => configSenderId

def isAlnumChar (c : Char) : Bool :=
  c.isAlpha || c.isDigit

/-- C9 (evaluation at the failing input): the sender id actually sent is
whitespace-stripped and at most 11 characters, but non-alphanumeric
characters pass through: supplied sender id "Q@re tech!" reaches the
gateway as "Q@retech!", which is not alphanumeric, contradicting the
constraint the source's own comment states. -/
theorem senderId_alnum_not_enforced :
    finalSenderId (some "Q@re tech!") "Qaretech" = "Q@retech!"
    ∧ "Q@retech!".data.all isAlnumChar = false
    ∧ (∀ sid : String,
        (finalSenderId (some sid) "Qaretech").data.length ≤ 11
        ∧ ∀ c ∈ (finalSenderId (some sid) "Qaretech").data,
            isJsSpace c = false) := by
  refine ⟨by decide, by decide, ?_⟩
  intro sid
  simp only [finalSenderId]
  split
  · exact ⟨by decide, by decide⟩
  · constructor
    · show (List.take 11 (stripWs sid).data).length ≤ 11
      rw [List.length_take]
      omega
    · intro c hc
      have hc' : c ∈ (stripWs sid).data := List.mem_of_mem_take hc
      simp only [stripWs, List.mem_filter, Bool.not_eq_eq_eq_not,
        Bool.not_true] at hc'
      exact hc'.2

end IPayNotify
